import Mathlib

/- Verification of the forecasting logic of the Pearls AQI dashboard repository
(streamlitaap.py and webapp.py).  Timestamps are modelled as whole hours since a
Monday-midnight epoch, so the hour-of-day of a row is ts % 24 and the pandas
day-of-week (Monday = 0) is ts / 24 % 7.  All numeric columns are exact
rationals.  The random samplers np.random.uniform and np.random.normal are
oracle parameters of the forecasters, so each forecast is a deterministic
function of the drawn noise; np.random.uniform(lo, hi) becomes an oracle
applied to (lo, hi, day) and np.random.normal(0, sigma) an oracle applied to
(sigma, day, hour).  The pandas sample standard deviation (a square root,
hence irrational) enters the computation only as an argument to the uniform
sampler, so it too is an abstract function parameter. -/

/- The Batteries rational-number operations are irreducible by default, which
blocks evaluation of concrete forecasts by the decide tactic; restore their
reducibility so closed rational computations reduce. -/
unseal Rat.add Rat.mul Rat.inv Rat.sub

set_option maxRecDepth 40000

/- ---------------- shared statistics helpers ---------------- -/

/-- Arithmetic mean of a list of rationals (pandas Series.mean on a NaN-free
column).  The mean of the empty list is 0 under rational division by zero. -/
def qmean (l : List ℚ) : ℚ := l.sum / l.length

/-- pandas DataFrame.tail(n): the last n rows (all rows when fewer than n). -/
def tailN (n : ℕ) (l : List α) : List α := l.drop (l.length - n)

/-- np.clip(x, lo, hi) = np.minimum(np.maximum(x, lo), hi). -/
def clip (x lo hi : ℚ) : ℚ := min (max x lo) hi

/-- The distinct key values appearing in a table: the index of a pandas
groupby(key) result. -/
def keysOf (key : α → ℕ) (df : List α) : List ℕ := (df.map key).dedup

/-- The values of column f on the rows whose key equals k: one groupby group. -/
def groupVals (key : α → ℕ) (f : α → ℚ) (df : List α) (k : ℕ) : List ℚ :=
  (df.filter (fun r => key r == k)).map f

/-- groupby(key)[col].mean() evaluated at one key. -/
def groupMean (key : α → ℕ) (f : α → ℚ) (df : List α) (k : ℕ) : ℚ :=
  qmean (groupVals key f df k)

/-- Series.mean() of a groupby-mean series: the mean of the per-key means,
taken over the observed keys (not the overall column mean). -/
def meanOfGroupMeans (key : α → ℕ) (f : α → ℚ) (df : List α) : ℚ :=
  qmean ((keysOf key df).map (groupMean key f df))

/-- dict.get(k, dflt) / Series.get(k, dflt) on a groupby-mean series. -/
def groupGet (key : α → ℕ) (f : α → ℚ) (df : List α) (k : ℕ) (dflt : ℚ) : ℚ :=
  if k ∈ keysOf key df then groupMean key f df k else dflt

namespace Streamlitaap

/- ---------------- streamlitaap.py : data model ---------------- -/

/-- One row of the AQI table: timestamp (hours since a Monday-midnight epoch),
aqi and temp columns. -/
structure SRow where
  ts : ℕ
  aqi : ℚ
  temp : ℚ
deriving DecidableEq

instance : DecidableRel (fun a b : SRow => a.ts ≤ b.ts) :=
  fun a b => Nat.decLe a.ts b.ts

instance : IsTotal SRow (fun a b => a.ts ≤ b.ts) :=
  ⟨fun a b => Nat.le_total a.ts b.ts⟩

instance : IsTrans SRow (fun a b => a.ts ≤ b.ts) :=
  ⟨fun _ _ _ => Nat.le_trans⟩

/-- df.sort_values('timestamp'). -/
def sortByTs (df : List SRow) : List SRow :=
  df.insertionSort (fun a b => a.ts ≤ b.ts)

/-- timestamp.dt.dayofweek (Monday = 0) for the hour-epoch model. -/
def dowOf (r : SRow) : ℕ := r.ts / 24 % 7

/-- (datetime.now() + timedelta(days=d)).weekday(), where today is the current
day number counted from a Monday epoch. -/
def targetDow (today d : ℕ) : ℕ := (today + d) % 7

/-- recent = df_sorted.tail(336), roughly 14 days of hourly data. -/
def recentS (dfs : List SRow) : List SRow := tailN 336 dfs

/-- recent_aqi = recent['aqi'].mean(). -/
def recent_aqi (dfs : List SRow) : ℚ := qmean ((recentS dfs).map SRow.aqi)

/-- aqi_trend = recent.tail(72)['aqi'].mean() - recent_aqi. -/
def aqi_trend (dfs : List SRow) : ℚ :=
  qmean ((tailN 72 (recentS dfs)).map SRow.aqi) - recent_aqi dfs

/-- base_aqi: the day-of-week group mean when the day-of-week occurs in the
history (dow in daily_aqi), else the recent-window mean. -/
def base_aqi (dfs : List SRow) (w : ℕ) : ℚ :=
  if w ∈ keysOf dowOf dfs then groupMean dowOf SRow.aqi dfs w else recent_aqi dfs

/-- aqi_std: the day-of-week group std when the day-of-week occurs in the
history, else recent['aqi'].std().  The sample standard deviation itself is
the abstract function parameter stdFn (it is irrational in general); only the
list it is applied to is computed from the table. -/
def aqi_std (stdFn : List ℚ → ℚ) (dfs : List SRow) (w : ℕ) : ℚ :=
  if w ∈ keysOf dowOf dfs then stdFn (groupVals dowOf SRow.aqi dfs w)
  else stdFn ((recentS dfs).map SRow.aqi)

/-- base_temp = daily_temp.get(dow, recent_temp). -/
def base_temp (dfs : List SRow) (w : ℕ) : ℚ :=
  groupGet dowOf SRow.temp dfs w (qmean ((recentS dfs).map SRow.temp))

/-- predicted_aqi = base_aqi + (aqi_trend * day * 0.3)
      + np.random.uniform(-aqi_std*0.2, aqi_std*0.2). -/
def predicted_aqi (stdFn : List ℚ → ℚ) (uA : ℚ → ℚ → ℕ → ℚ)
    (dfs : List SRow) (today d : ℕ) : ℚ :=
  base_aqi dfs (targetDow today d) + aqi_trend dfs * d * (3 / 10)
    + uA (-(aqi_std stdFn dfs (targetDow today d) * (1 / 5)))
         (aqi_std stdFn dfs (targetDow today d) * (1 / 5)) d

/-- predicted_temp = base_temp + np.random.uniform(-1, 1). -/
def predicted_temp (uT : ℚ → ℚ → ℕ → ℚ) (dfs : List SRow) (today d : ℕ) : ℚ :=
  base_temp dfs (targetDow today d) + uT (-1) 1 d

/-- One forecast record of forecast_simple: day index, clipped aqi and temp,
and the target date (day number). -/
structure SRec where
  day : ℕ
  aqi : ℚ
  temp : ℚ
  date : ℕ
deriving DecidableEq

/-- The record appended for future day d inside the forecast loop. -/
def srecOf (stdFn : List ℚ → ℚ) (uA uT : ℚ → ℚ → ℕ → ℚ)
    (dfs : List SRow) (today d : ℕ) : SRec :=
  { day := d
    aqi := clip (predicted_aqi stdFn uA dfs today d) 10 500
    temp := clip (predicted_temp uT dfs today d) 15 45
    date := today + d }

/-- forecast_simple(df, days): sort the table, then build one record per
future day in range(1, days + 1). -/
def forecast_simple (stdFn : List ℚ → ℚ) (uA uT : ℚ → ℚ → ℕ → ℚ)
    (df : List SRow) (days today : ℕ) : List SRec :=
  (List.range' 1 days).map (srecOf stdFn uA uT (sortByTs df) today)

/-- get_aqi_category(aqi): category name and colour from the threshold chain
50 / 100 / 150 / 200 / 300. -/
def get_aqi_category (aqi : ℚ) : String × String :=
  if aqi ≤ 50 then ("Good", "#10b981")
  else if aqi ≤ 100 then ("Moderate", "#f59e0b")
  else if aqi ≤ 150 then ("Unhealthy for Sensitive", "#ff6b6b")
  else if aqi ≤ 200 then ("Unhealthy", "#ef4444")
  else if aqi ≤ 300 then ("Very Unhealthy", "#c026d3")
  else ("Hazardous", "#7c2d12")

end Streamlitaap

namespace Webapp

/- ---------------- webapp.py : data model ---------------- -/

/-- One row of the weather table: timestamp (hours since a Monday-midnight
epoch) and the temp_C, humidity_percent, wind_speed_mps columns. -/
structure WRow where
  ts : ℕ
  temp_C : ℚ
  humidity_percent : ℚ
  wind_speed_mps : ℚ
deriving DecidableEq

instance : DecidableRel (fun a b : WRow => a.ts ≤ b.ts) :=
  fun a b => Nat.decLe a.ts b.ts

instance : IsTotal WRow (fun a b => a.ts ≤ b.ts) :=
  ⟨fun a b => Nat.le_total a.ts b.ts⟩

instance : IsTrans WRow (fun a b => a.ts ≤ b.ts) :=
  ⟨fun _ _ _ => Nat.le_trans⟩

/-- df.sort_values('timestamp'). -/
def sortByTs (df : List WRow) : List WRow :=
  df.insertionSort (fun a b => a.ts ≤ b.ts)

/-- timestamp.dt.hour for the hour-epoch model. -/
def hourOf (r : WRow) : ℕ := r.ts % 24

/-- timestamp.dt.dayofweek (Monday = 0) for the hour-epoch model. -/
def dowOf (r : WRow) : ℕ := r.ts / 24 % 7

/-- (datetime.now() + timedelta(days=d)).weekday(), where today is the current
day number counted from a Monday epoch. -/
def targetDow (today d : ℕ) : ℕ := (today + d) % 7

/-- df_sorted['timestamp'].max(); 0 on the empty table. -/
def maxTs (df : List WRow) : ℕ := (df.map WRow.ts).foldl max 0

/-- df_sorted['timestamp'].min(); 0 on the empty table. -/
def minTs (df : List WRow) : ℕ :=
  match df.map WRow.ts with
  | [] => 0
  | x :: xs => xs.foldl min x

/-- recent = df_sorted[df_sorted['timestamp'] >= last_timestamp -
timedelta(days=7)].  Natural subtraction truncates at 0, which agrees with the
Python comparison whenever all timestamps are nonnegative. -/
def recentW (dfs : List WRow) : List WRow :=
  dfs.filter (fun r => decide (maxTs dfs - 168 ≤ r.ts))

/-- data['timestamp'].min() over the (timestamp, value) pairs handed to
calc_trend; 0 on the empty window. -/
def minFst (data : List (ℕ × Option ℚ)) : ℕ :=
  match data.map Prod.fst with
  | [] => 0
  | x :: xs => xs.foldl min x

/-- calc_trend(data, col): elapsed hours x = timestamp - window minimum, mask
away the missing (NaN, modelled as none) values of the column, return slope 0
when fewer than 2 valid samples remain, otherwise the closed-form slope
sum((x - xbar) * (y - ybar)) / sum((x - xbar)^2).  Timestamps are already in
hours, absorbing the division of total_seconds() by 3600. -/
def calc_trend (data : List (ℕ × Option ℚ)) : ℚ :=
  let m := minFst data
  let pts := data.filterMap (fun p => p.2.map (fun v => (((p.1 - m : ℕ) : ℚ), v)))
  if pts.length < 2 then 0
  else
    let xbar := qmean (pts.map Prod.fst)
    let ybar := qmean (pts.map Prod.snd)
    (pts.map (fun p => (p.1 - xbar) * (p.2 - ybar))).sum
      / (pts.map (fun p => (p.1 - xbar) ^ 2)).sum

/-- temp_slope = calc_trend(recent, 'temp_C'). -/
def temp_slope (dfs : List WRow) : ℚ :=
  calc_trend ((recentW dfs).map (fun r => (r.ts, some r.temp_C)))

/-- hum_slope = calc_trend(recent, 'humidity_percent'). -/
def hum_slope (dfs : List WRow) : ℚ :=
  calc_trend ((recentW dfs).map (fun r => (r.ts, some r.humidity_percent)))

/-- wind_slope = calc_trend(recent, 'wind_speed_mps'). -/
def wind_slope (dfs : List WRow) : ℚ :=
  calc_trend ((recentW dfs).map (fun r => (r.ts, some r.wind_speed_mps)))

/-- base_temp = recent['temp_C'].tail(24).mean(). -/
def base_temp (dfs : List WRow) : ℚ :=
  qmean ((tailN 24 (recentW dfs)).map WRow.temp_C)

/-- base_hum = recent['humidity_percent'].tail(24).mean(). -/
def base_hum (dfs : List WRow) : ℚ :=
  qmean ((tailN 24 (recentW dfs)).map WRow.humidity_percent)

/-- base_wind = recent['wind_speed_mps'].tail(24).mean(). -/
def base_wind (dfs : List WRow) : ℚ :=
  qmean ((tailN 24 (recentW dfs)).map WRow.wind_speed_mps)

/-- last_hrs = (recent['timestamp'].max() - recent['timestamp'].min())
.total_seconds() / 3600, in hours. -/
def last_hrs (dfs : List WRow) : ℚ :=
  ((maxTs (recentW dfs) - minTs (recentW dfs) : ℕ) : ℚ)

/-- hr_off = last_hrs + (day - 1) * 24 + hr. -/
def hr_off (dfs : List WRow) (d h : ℕ) : ℚ :=
  last_hrs dfs + (((d - 1) * 24 + h : ℕ) : ℚ)

/-- t_seas = hourly_temp.get(hr, base_temp) - hourly_temp.mean(). -/
def t_seas (dfs : List WRow) (h : ℕ) : ℚ :=
  groupGet hourOf WRow.temp_C dfs h (base_temp dfs)
    - meanOfGroupMeans hourOf WRow.temp_C dfs

/-- h_seas = hourly_humidity.get(hr, base_hum) - hourly_humidity.mean(). -/
def h_seas (dfs : List WRow) (h : ℕ) : ℚ :=
  groupGet hourOf WRow.humidity_percent dfs h (base_hum dfs)
    - meanOfGroupMeans hourOf WRow.humidity_percent dfs

/-- w_seas = hourly_wind.get(hr, base_wind) - hourly_wind.mean(). -/
def w_seas (dfs : List WRow) (h : ℕ) : ℚ :=
  groupGet hourOf WRow.wind_speed_mps dfs h (base_wind dfs)
    - meanOfGroupMeans hourOf WRow.wind_speed_mps dfs

/-- weekly_t = weekly_temp.get(dow, base_temp) - weekly_temp.mean(). -/
def weekly_t (dfs : List WRow) (today d : ℕ) : ℚ :=
  groupGet dowOf WRow.temp_C dfs (targetDow today d) (base_temp dfs)
    - meanOfGroupMeans dowOf WRow.temp_C dfs

/-- weekly_h = weekly_hum.get(dow, base_hum) - weekly_hum.mean(). -/
def weekly_h (dfs : List WRow) (today d : ℕ) : ℚ :=
  groupGet dowOf WRow.humidity_percent dfs (targetDow today d) (base_hum dfs)
    - meanOfGroupMeans dowOf WRow.humidity_percent dfs

/-- pred_t = base_temp + t_seas + weekly_t + temp_slope * hr_off
      + np.random.normal(0, 0.3). -/
def pred_t (gauss : ℚ → ℕ → ℕ → ℚ) (dfs : List WRow) (today d h : ℕ) : ℚ :=
  base_temp dfs + t_seas dfs h + weekly_t dfs today d
    + temp_slope dfs * hr_off dfs d h + gauss (3 / 10) d h

/-- pred_h = base_hum + h_seas + weekly_h + hum_slope * hr_off
      + np.random.normal(0, 1.5). -/
def pred_h (gauss : ℚ → ℕ → ℕ → ℚ) (dfs : List WRow) (today d h : ℕ) : ℚ :=
  base_hum dfs + h_seas dfs h + weekly_h dfs today d
    + hum_slope dfs * hr_off dfs d h + gauss (15 / 10) d h

/-- pred_w = base_wind + w_seas + wind_slope * hr_off
      + np.random.normal(0, 0.2).  Note: the source adds no day-of-week
seasonal term to the wind prediction. -/
def pred_w (gauss : ℚ → ℕ → ℕ → ℚ) (dfs : List WRow) (_today d h : ℕ) : ℚ :=
  base_wind dfs + w_seas dfs h
    + wind_slope dfs * hr_off dfs d h + gauss (2 / 10) d h

/-- One forecast record of forecast_weather: the day index and the 24 hourly
clipped predictions per quantity. -/
structure WRec where
  day : ℕ
  temps : List ℚ
  humidity : List ℚ
  wind : List ℚ
deriving DecidableEq

/-- The record appended for future day d inside the forecast loop. -/
def wrecOf (gauss : ℚ → ℕ → ℕ → ℚ) (dfs : List WRow) (today d : ℕ) : WRec :=
  { day := d
    temps := (List.range 24).map (fun h => clip (pred_t gauss dfs today d h) 15 45)
    humidity := (List.range 24).map (fun h => clip (pred_h gauss dfs today d h) 20 100)
    wind := (List.range 24).map (fun h => clip (pred_w gauss dfs today d h) 0 25) }

/-- forecast_weather(df, days): sort the table, then build one record per
future day in range(1, days + 1), returning the records together with the
trend summary (temp_trend, humidity_trend, wind_trend). -/
def forecast_weather (gauss : ℚ → ℕ → ℕ → ℚ) (df : List WRow) (days today : ℕ) :
    List WRec × (ℚ × ℚ × ℚ) :=
  ((List.range' 1 days).map (wrecOf gauss (sortByTs df) today),
   (temp_slope (sortByTs df), hum_slope (sortByTs df), wind_slope (sortByTs df)))

/- ---------------- spec-side definitions for refinement claims ---------------- -/

/-- The window's first timestamp (0 on the empty window). -/
def headFst (data : List (ℕ × Option ℚ)) : ℕ :=
  match data with
  | [] => 0
  | p :: _ => p.1

/-- Written from the spec's words for claim C4: the ordinary-least-squares
slope of the column against elapsed hours since the window's first timestamp,
as the covariance/variance ratio over the non-missing samples. -/
def olsSlopeSpec (data : List (ℕ × Option ℚ)) : ℚ :=
  let t0 := headFst data
  let pts := data.filterMap (fun p => p.2.map (fun v => (((p.1 - t0 : ℕ) : ℚ), v)))
  let xbar := qmean (pts.map Prod.fst)
  let ybar := qmean (pts.map Prod.snd)
  (pts.map (fun p => (p.1 - xbar) * (p.2 - ybar))).sum
    / (pts.map (fun p => (p.1 - xbar) ^ 2)).sum

/-- Written from the claim's words for C2: the day-of-week seasonal deviation
of wind speed from its own mean, by analogy with weekly_t and weekly_h.  The
source computes no such series for wind; this definition exists only to state
the claim's asserted wind formula. -/
def weekly_w_claim (dfs : List WRow) (today d : ℕ) : ℚ :=
  groupGet dowOf WRow.wind_speed_mps dfs (targetDow today d) (base_wind dfs)
    - meanOfGroupMeans dowOf WRow.wind_speed_mps dfs

/-- The wind prediction formula asserted by claim C2 (baseline + hour-of-day
deviation + day-of-week deviation + trend * hour offset + noise). -/
def pred_w_claim (gauss : ℚ → ℕ → ℕ → ℚ) (dfs : List WRow) (today d h : ℕ) : ℚ :=
  base_wind dfs + w_seas dfs h + weekly_w_claim dfs today d
    + wind_slope dfs * hr_off dfs d h + gauss (2 / 10) d h

end Webapp

/- ---------------- load step (identical logic in both scripts) ---------------- -/

namespace LoadStep

instance {α : Type} : DecidableRel (fun a b : ℕ × α => a.1 ≤ b.1) :=
  fun a b => Nat.decLe a.1 b.1

instance {α : Type} : IsTotal (ℕ × α) (fun a b : ℕ × α => a.1 ≤ b.1) :=
  ⟨fun a b => Nat.le_total a.1 b.1⟩

instance {α : Type} : IsTrans (ℕ × α) (fun a b : ℕ × α => a.1 ≤ b.1) :=
  ⟨fun _ _ _ => Nat.le_trans⟩

/-- load_data of streamlitaap.py lines 71-82 and webapp.py lines 55-66 (the
two bodies are identical up to file path and schema): strip whitespace from
the column names, coerce the timestamp column (a row whose timestamp fails to
parse becomes none and is dropped by dropna), and sort the remaining rows
ascending by timestamp.  A raw row is (parse result of the timestamp, rest of
the row); the payload type is abstract since the remaining columns are passed
through untouched. -/
def load_data {α : Type} (cols : List String) (rows : List (Option ℕ × α)) :
    List String × List (ℕ × α) :=
  (cols.map (fun s => s.trim),
   (rows.filterMap (fun p => p.1.map (fun t => (t, p.2)))).insertionSort
     (fun a b => a.1 ≤ b.1))

end LoadStep

/- ---------------- caught-exception model of the forecast loops ---------------- -/

/-- One step of the forecast loop under the top-level try/except: an exception
raised while building the record for day d (failAt d) aborts the whole
computation; an already-aborted computation stays aborted. -/
def guardStep (mk : ℕ → α) (failAt : ℕ → Bool) :
    Option (List α) → ℕ → Option (List α)
  | none, _ => none
  | some l, d => if failAt d then none else some (l ++ [mk d])

/-- The forecast loop over the day list ds, threading the abort state. -/
def guardedFold (mk : ℕ → α) (failAt : ℕ → Bool) (ds : List ℕ)
    (init : List α) : Option (List α) :=
  ds.foldl (guardStep mk failAt) (some init)

/-- forecast_simple with its try/except modelled explicitly: failPre is an
exception in the precomputation before the loop, failAt d an exception while
building day d's record; except Exception returns None, discarding the partial
local list. -/
def Streamlitaap.forecast_simple_run (stdFn : List ℚ → ℚ)
    (uA uT : ℚ → ℚ → ℕ → ℚ) (df : List Streamlitaap.SRow) (days today : ℕ)
    (failPre : Bool) (failAt : ℕ → Bool) : Option (List Streamlitaap.SRec) :=
  if failPre then none
  else guardedFold (Streamlitaap.srecOf stdFn uA uT (Streamlitaap.sortByTs df) today)
    failAt (List.range' 1 days) []

/-- forecast_weather with its try/except modelled explicitly; except Exception
returns (None, None), modelled as a single absent sentinel. -/
def Webapp.forecast_weather_run (gauss : ℚ → ℕ → ℕ → ℚ) (df : List Webapp.WRow)
    (days today : ℕ) (failPre : Bool) (failAt : ℕ → Bool) :
    Option (List Webapp.WRec × (ℚ × ℚ × ℚ)) :=
  if failPre then none
  else
    match guardedFold (Webapp.wrecOf gauss (Webapp.sortByTs df) today)
        failAt (List.range' 1 days) [] with
    | none => none
    | some l => some (l, (Webapp.temp_slope (Webapp.sortByTs df),
        Webapp.hum_slope (Webapp.sortByTs df),
        Webapp.wind_slope (Webapp.sortByTs df)))

/- ---------------- zero-noise oracles and concrete inputs ---------------- -/

/-- The uniform sampler stubbed to 0. -/
def zeroUnif : ℚ → ℚ → ℕ → ℚ := fun _ _ _ => 0

/-- The Gaussian sampler stubbed to 0. -/
def zeroGauss : ℚ → ℕ → ℕ → ℚ := fun _ _ _ => 0

/-- A standard-deviation function stubbed to 0 (the std only scales the
jitter, which the zero sampler ignores). -/
def zeroStd : List ℚ → ℚ := fun _ => 0

/-- The aqi column of the concrete history realizing claim C1's example:
Monday mean 80, trailing-336-row mean 75, trailing-72-row mean 78. -/
def histAqi (i : ℕ) : ℚ := if i < 24 then 80 else if i < 28 then -9 else 78

/-- A concrete 100-row hourly history (hours 0..99 from a Monday midnight):
rows 0..23 are the Mondays with aqi 80, rows 24..27 have aqi -9, rows 28..99
have aqi 78, so the Monday mean is 80, the trailing-336-row mean is
(24*80 - 36 + 72*78) / 100 = 75, and the trailing-72-row mean is 78. -/
def hist100 : List Streamlitaap.SRow :=
  (List.range 100).map (fun i => ⟨i, histAqi i, 20⟩)

/-- A 2-row weather history for the claim C2 counterexample: Monday 00:00 has
wind 1, Tuesday 00:00 has wind 3, so the day-of-week wind means are 1 and 3
and the would-be Monday deviation is -1, while the wind trend slope is 1/12. -/
def dfW2 : List Webapp.WRow := [⟨0, 20, 50, 1⟩, ⟨24, 20, 50, 3⟩]

/-- A constant-valued weather history whose temperature 50 lies outside the
clip interval [15, 45], for the claim C8 counterexample. -/
def dfC8bad : List Webapp.WRow := [⟨0, 50, 50, 5⟩, ⟨1, 50, 50, 5⟩]

/-- A constant-valued weather history inside all clip bounds, for the C8
witness. -/
def dfC8 : List Webapp.WRow := [⟨0, 20, 50, 5⟩, ⟨25, 20, 50, 5⟩]

/-- A sorted 3-point trend window with one missing sample, for the C4
witness: valid points (0, 1) and (24, 3) give slope 1/12. -/
def dataC4 : List (ℕ × Option ℚ) := [(0, some 1), (12, none), (24, some 3)]

/-- A default weather record for indexing in closed statements. -/
def wdefault : Webapp.WRec := ⟨0, [], [], []⟩

/- ---------------- helper lemmas ---------------- -/

theorem clip_le_right (x lo hi : ℚ) : clip x lo hi ≤ hi := min_le_right _ _

theorem le_clip (x : ℚ) {lo hi : ℚ} (h : lo ≤ hi) : lo ≤ clip x lo hi :=
  le_min (le_max_right _ _) h

theorem clip_eq_self {x lo hi : ℚ} (h1 : lo ≤ x) (h2 : x ≤ hi) :
    clip x lo hi = x := by
  unfold clip
  rw [max_eq_left h1, min_eq_left h2]

theorem qmean_const {l : List ℚ} {c : ℚ} (h : ∀ x ∈ l, x = c) (hne : l ≠ []) :
    qmean l = c := by
  unfold qmean
  rw [List.sum_eq_card_nsmul l c h, nsmul_eq_mul]
  have hl : (l.length : ℚ) ≠ 0 := by
    have := List.length_pos.mpr hne
    positivity
  field_simp

theorem tailN_tailN {m n : ℕ} (h : m ≤ n) (l : List α) :
    tailN m (tailN n l) = tailN m l := by
  unfold tailN
  rw [List.drop_drop]
  congr 1
  rw [List.length_drop]
  omega

theorem tailN_subset (n : ℕ) (l : List α) : ∀ x ∈ tailN n l, x ∈ l :=
  fun _ hx => List.drop_subset _ l hx

theorem tailN_ne_nil {n : ℕ} {l : List α} (hl : l ≠ []) (hn : 0 < n) :
    tailN n l ≠ [] := by
  rw [← List.length_pos]
  unfold tailN
  rw [List.length_drop]
  have := List.length_pos.mpr hl
  omega

theorem mem_groupVals {key : α → ℕ} {f : α → ℚ} {df : List α} {k : ℕ}
    {x : ℚ} (hx : x ∈ groupVals key f df k) : ∃ r ∈ df, f r = x := by
  unfold groupVals at hx
  obtain ⟨r, hr, rfl⟩ := List.mem_map.mp hx
  exact ⟨r, List.mem_of_mem_filter hr, rfl⟩

theorem groupVals_ne_nil {key : α → ℕ} (f : α → ℚ) {df : List α} {k : ℕ}
    (hk : k ∈ keysOf key df) : groupVals key f df k ≠ [] := by
  unfold keysOf at hk
  obtain ⟨r, hr, hkr⟩ := List.mem_map.mp (List.mem_dedup.mp hk)
  have hrf : r ∈ df.filter (fun r => key r == k) :=
    List.mem_filter.mpr ⟨hr, by simp [hkr]⟩
  exact List.ne_nil_of_mem (List.mem_map_of_mem f hrf)

theorem groupMean_const {key : α → ℕ} {f : α → ℚ} {df : List α} {k : ℕ}
    {c : ℚ} (hf : ∀ r ∈ df, f r = c) (hk : k ∈ keysOf key df) :
    groupMean key f df k = c := by
  refine qmean_const (fun x hx => ?_) (groupVals_ne_nil f hk)
  obtain ⟨r, hr, rfl⟩ := mem_groupVals hx
  exact hf r hr

theorem meanOfGroupMeans_const {key : α → ℕ} {f : α → ℚ} {df : List α}
    {c : ℚ} (hf : ∀ r ∈ df, f r = c) (hdf : df ≠ []) :
    meanOfGroupMeans key f df = c := by
  have hkeys : keysOf key df ≠ [] := by
    unfold keysOf
    simpa [List.dedup_eq_nil, List.map_eq_nil_iff] using hdf
  refine qmean_const (fun x hx => ?_) (by simpa [List.map_eq_nil_iff] using hkeys)
  obtain ⟨k, hk, rfl⟩ := List.mem_map.mp hx
  exact groupMean_const hf hk

theorem groupGet_const {key : α → ℕ} {f : α → ℚ} {df : List α} {k : ℕ}
    {dflt c : ℚ} (hf : ∀ r ∈ df, f r = c) (hd : dflt = c) :
    groupGet key f df k dflt = c := by
  unfold groupGet
  split
  · exact groupMean_const hf (by assumption)
  · exact hd

theorem foldl_max_or (xs : List ℕ) : ∀ a : ℕ,
    xs.foldl max a = a ∨ xs.foldl max a ∈ xs := by
  induction xs with
  | nil => intro a; left; rfl
  | cons x xs ih =>
    intro a
    rcases ih (max a x) with h | h
    · rcases max_choice a x with hm | hm
      · left; rw [List.foldl_cons, h, hm]
      · right; rw [List.foldl_cons, h, hm]; exact List.mem_cons_self x xs
    · right; exact List.mem_cons_of_mem x h

theorem foldl_min_of_le (xs : List ℕ) : ∀ a : ℕ,
    (∀ x ∈ xs, a ≤ x) → xs.foldl min a = a := by
  induction xs with
  | nil => intro a _; rfl
  | cons x xs ih =>
    intro a h
    rw [List.foldl_cons, min_eq_left (h x (List.mem_cons_self x xs))]
    exact ih a (fun y hy => h y (List.mem_cons_of_mem x hy))

/- ---------------- claim theorems ---------------- -/

/-- C10: get_aqi_category is total on the rationals and partitions them by the
thresholds 50, 100, 150, 200, 300: values at most 50 (including 0 and negative
values) map to Good, values in (50, 100] to Moderate, (100, 150] to Unhealthy
for Sensitive, (150, 200] to Unhealthy, (200, 300] to Very Unhealthy, and
values above 300 to Hazardous; being a function, it assigns each input exactly
one category and colour. -/
theorem claim_C10 (aqi : ℚ) :
    (aqi ≤ 50 → Streamlitaap.get_aqi_category aqi = ("Good", "#10b981"))
    ∧ (50 < aqi → aqi ≤ 100 →
        Streamlitaap.get_aqi_category aqi = ("Moderate", "#f59e0b"))
    ∧ (100 < aqi → aqi ≤ 150 →
        Streamlitaap.get_aqi_category aqi = ("Unhealthy for Sensitive", "#ff6b6b"))
    ∧ (150 < aqi → aqi ≤ 200 →
        Streamlitaap.get_aqi_category aqi = ("Unhealthy", "#ef4444"))
    ∧ (200 < aqi → aqi ≤ 300 →
        Streamlitaap.get_aqi_category aqi = ("Very Unhealthy", "#c026d3"))
    ∧ (300 < aqi →
        Streamlitaap.get_aqi_category aqi = ("Hazardous", "#7c2d12")) := by
  refine ⟨fun h1 => ?_, fun h1 h2 => ?_, fun h1 h2 => ?_, fun h1 h2 => ?_,
    fun h1 h2 => ?_, fun h1 => ?_⟩
  · simp [Streamlitaap.get_aqi_category, h1]
  · simp [Streamlitaap.get_aqi_category, h2, not_le.mpr h1]
  · have n50 : ¬ aqi ≤ 50 := by linarith
    have n100 : ¬ aqi ≤ 100 := by linarith
    simp [Streamlitaap.get_aqi_category, h2, n50, n100]
  · have n50 : ¬ aqi ≤ 50 := by linarith
    have n100 : ¬ aqi ≤ 100 := by linarith
    have n150 : ¬ aqi ≤ 150 := by linarith
    simp [Streamlitaap.get_aqi_category, h2, n50, n100, n150]
  · have n50 : ¬ aqi ≤ 50 := by linarith
    have n100 : ¬ aqi ≤ 100 := by linarith
    have n150 : ¬ aqi ≤ 150 := by linarith
    have n200 : ¬ aqi ≤ 200 := by linarith
    simp [Streamlitaap.get_aqi_category, h2, n50, n100, n150, n200]
  · have n50 : ¬ aqi ≤ 50 := by linarith
    have n100 : ¬ aqi ≤ 100 := by linarith
    have n150 : ¬ aqi ≤ 150 := by linarith
    have n200 : ¬ aqi ≤ 200 := by linarith
    have n300 : ¬ aqi ≤ 300 := by linarith
    simp [Streamlitaap.get_aqi_category, n50, n100, n150, n200, n300]

/-- C10 witness: a negative AQI is categorised Good. -/
theorem claim_C10_witness :
    Streamlitaap.get_aqi_category (-3) = ("Good", "#10b981") :=
  (claim_C10 (-3)).1 (by norm_num)

/-- C3: for all inputs (history, horizon, date, noise oracles) every value in
the returned forecast records satisfies the stated bounds after clipping: AQI
in [10, 500] and temperature in [15, 45] for the seasonal forecaster,
temperature in [15, 45], humidity in [20, 100] and wind in [0, 25] for the
hourly forecaster. -/
theorem claim_C3 (stdFn : List ℚ → ℚ) (uA uT : ℚ → ℚ → ℕ → ℚ)
    (df : List Streamlitaap.SRow) (days today : ℕ)
    (gauss : ℚ → ℕ → ℕ → ℚ) (dfw : List Webapp.WRow) :
    ((Streamlitaap.forecast_simple stdFn uA uT df days today).all
      (fun rec => decide (10 ≤ rec.aqi ∧ rec.aqi ≤ 500
        ∧ 15 ≤ rec.temp ∧ rec.temp ≤ 45))) = true
    ∧ (((Webapp.forecast_weather gauss dfw days today).1).all
      (fun rec => (rec.temps.all (fun x => decide (15 ≤ x ∧ x ≤ 45)))
        && (rec.humidity.all (fun x => decide (20 ≤ x ∧ x ≤ 100)))
        && (rec.wind.all (fun x => decide (0 ≤ x ∧ x ≤ 25))))) = true := by
  constructor
  · simp only [Streamlitaap.forecast_simple, List.all_eq_true, List.mem_map,
      decide_eq_true_eq]
    rintro rec ⟨d, _, rfl⟩
    exact ⟨le_clip _ (by norm_num), clip_le_right _ _ _,
      le_clip _ (by norm_num), clip_le_right _ _ _⟩
  · simp only [Webapp.forecast_weather, List.all_eq_true, List.mem_map,
      Bool.and_eq_true, decide_eq_true_eq]
    rintro rec ⟨d, _, rfl⟩
    refine ⟨⟨fun x hx => ?_, fun x hx => ?_⟩, fun x hx => ?_⟩ <;>
    · obtain ⟨h, _, rfl⟩ := List.mem_map.mp hx
      exact ⟨le_clip _ (by norm_num), clip_le_right _ _ _⟩

/-- C5: a horizon of 0 yields the empty record list for both forecasters; in
general a horizon of n yields exactly n records whose day indices are
1, 2, ..., n in order and whose dates (seasonal forecaster) are today + 1,
..., today + n, strictly increasing; each hourly record carries exactly 24
predictions per quantity.  Instantiating n = 3 gives the claimed 3 records
with day indices 1, 2, 3. -/
theorem claim_C5 (stdFn : List ℚ → ℚ) (uA uT : ℚ → ℚ → ℕ → ℚ)
    (df : List Streamlitaap.SRow) (days today : ℕ)
    (gauss : ℚ → ℕ → ℕ → ℚ) (dfw : List Webapp.WRow) :
    (Streamlitaap.forecast_simple stdFn uA uT df 0 today = [])
    ∧ ((Streamlitaap.forecast_simple stdFn uA uT df days today).length = days)
    ∧ ((Streamlitaap.forecast_simple stdFn uA uT df days today).map
        Streamlitaap.SRec.day = List.range' 1 days)
    ∧ ((Streamlitaap.forecast_simple stdFn uA uT df days today).map
        Streamlitaap.SRec.date = List.range' (today + 1) days)
    ∧ ((Webapp.forecast_weather gauss dfw 0 today).1 = [])
    ∧ (((Webapp.forecast_weather gauss dfw days today).1).length = days)
    ∧ (((Webapp.forecast_weather gauss dfw days today).1).map
        Webapp.WRec.day = List.range' 1 days)
    ∧ (((Webapp.forecast_weather gauss dfw days today).1).map
        (fun rec => rec.temps.length) = List.replicate days 24)
    ∧ (((Webapp.forecast_weather gauss dfw days today).1).map
        (fun rec => rec.humidity.length) = List.replicate days 24)
    ∧ (((Webapp.forecast_weather gauss dfw days today).1).map
        (fun rec => rec.wind.length) = List.replicate days 24) := by
  refine ⟨rfl, ?_, ?_, ?_, rfl, ?_, ?_, ?_, ?_, ?_⟩ <;>
    simp [Streamlitaap.forecast_simple, Webapp.forecast_weather,
      Streamlitaap.srecOf, Webapp.wrecOf, List.map_map, Function.comp_def,
      ← List.map_add_range', List.map_const']

/-- C1: the seasonal forecaster's pre-clip AQI prediction for future day d is
the day-of-week historical AQI mean of the target date plus trend delta times
d times 0.3 plus the uniform noise drawn from plus/minus 0.2 times that
day-of-week's std, where the trend delta is the mean of the last 72 rows' aqi
minus the mean of the last 336 rows' aqi; any sampler respecting its bounds
yields noise of magnitude at most 0.2 times the std.  In particular, on the
concrete history hist100 (Monday mean 80, trailing-336 mean 75, trailing-72
mean 78) with the noise fixed to 0, the day-1 Monday prediction is 80.9. -/
theorem claim_C1 (df : List Streamlitaap.SRow) (today d : ℕ)
    (stdFn : List ℚ → ℚ) (uA : ℚ → ℚ → ℕ → ℚ)
    (hseen : Streamlitaap.targetDow today d
      ∈ keysOf Streamlitaap.dowOf (Streamlitaap.sortByTs df))
    (hunif : ∀ lo hi k, lo ≤ hi → lo ≤ uA lo hi k ∧ uA lo hi k ≤ hi)
    (hstd : 0 ≤ Streamlitaap.aqi_std stdFn (Streamlitaap.sortByTs df)
      (Streamlitaap.targetDow today d)) :
    (Streamlitaap.predicted_aqi stdFn uA (Streamlitaap.sortByTs df) today d
      = groupMean Streamlitaap.dowOf Streamlitaap.SRow.aqi
          (Streamlitaap.sortByTs df) (Streamlitaap.targetDow today d)
        + (qmean ((tailN 72 (Streamlitaap.sortByTs df)).map Streamlitaap.SRow.aqi)
            - qmean ((tailN 336 (Streamlitaap.sortByTs df)).map Streamlitaap.SRow.aqi))
          * d * (3 / 10)
        + uA (-(Streamlitaap.aqi_std stdFn (Streamlitaap.sortByTs df)
                  (Streamlitaap.targetDow today d) * (1 / 5)))
             (Streamlitaap.aqi_std stdFn (Streamlitaap.sortByTs df)
                  (Streamlitaap.targetDow today d) * (1 / 5)) d)
    ∧ |uA (-(Streamlitaap.aqi_std stdFn (Streamlitaap.sortByTs df)
              (Streamlitaap.targetDow today d) * (1 / 5)))
          (Streamlitaap.aqi_std stdFn (Streamlitaap.sortByTs df)
              (Streamlitaap.targetDow today d) * (1 / 5)) d|
        ≤ Streamlitaap.aqi_std stdFn (Streamlitaap.sortByTs df)
            (Streamlitaap.targetDow today d) * (1 / 5)
    ∧ groupMean Streamlitaap.dowOf Streamlitaap.SRow.aqi
        (Streamlitaap.sortByTs hist100) 0 = 80
    ∧ Streamlitaap.recent_aqi (Streamlitaap.sortByTs hist100) = 75
    ∧ qmean ((tailN 72 (Streamlitaap.sortByTs hist100)).map
        Streamlitaap.SRow.aqi) = 78
    ∧ Streamlitaap.predicted_aqi zeroStd zeroUnif
        (Streamlitaap.sortByTs hist100) 6 1 = 809 / 10 := by
  have hb : -(Streamlitaap.aqi_std stdFn (Streamlitaap.sortByTs df)
        (Streamlitaap.targetDow today d) * (1 / 5))
      ≤ Streamlitaap.aqi_std stdFn (Streamlitaap.sortByTs df)
        (Streamlitaap.targetDow today d) * (1 / 5) :=
    neg_le_self (mul_nonneg hstd (by norm_num))
  refine ⟨?_, ?_, by decide, by decide, by decide, by decide⟩
  · unfold Streamlitaap.predicted_aqi Streamlitaap.base_aqi
      Streamlitaap.aqi_trend Streamlitaap.recent_aqi Streamlitaap.recentS
    rw [if_pos hseen, tailN_tailN (by norm_num : (72 : ℕ) ≤ 336)]
  · exact abs_le.mpr (hunif _ _ d hb)

/-- C1 witness: the concrete day-1 Monday prediction on hist100 with zero
noise equals 80.9, obtained by applying the claim theorem with its hypotheses
discharged on hist100. -/
theorem claim_C1_witness :
    Streamlitaap.predicted_aqi zeroStd zeroUnif
      (Streamlitaap.sortByTs hist100) 6 1 = 809 / 10 :=
  (claim_C1 hist100 6 1 zeroStd (fun lo _ _ => lo) (by decide)
    (fun lo _ k h => ⟨le_refl lo, h⟩) (by decide)).2.2.2.2.2

/-- C7: when the target date's day-of-week never occurs in the history, the
seasonal forecaster substitutes the trailing-336-row recent window's mean for
the day-of-week AQI mean and the recent window's std as the jitter scale, the
prediction being recent mean + trend times d times 0.3 + noise drawn from
plus/minus 0.2 times the recent std; the fallback path completes normally: the
forecast still returns one record for every requested day. -/
theorem claim_C7 (df : List Streamlitaap.SRow) (today d days : ℕ)
    (stdFn : List ℚ → ℚ) (uA uT : ℚ → ℚ → ℕ → ℚ)
    (hmiss : Streamlitaap.targetDow today d
      ∉ keysOf Streamlitaap.dowOf (Streamlitaap.sortByTs df)) :
    (Streamlitaap.predicted_aqi stdFn uA (Streamlitaap.sortByTs df) today d
      = Streamlitaap.recent_aqi (Streamlitaap.sortByTs df)
        + Streamlitaap.aqi_trend (Streamlitaap.sortByTs df) * d * (3 / 10)
        + uA (-(stdFn ((Streamlitaap.recentS (Streamlitaap.sortByTs df)).map
                  Streamlitaap.SRow.aqi) * (1 / 5)))
             (stdFn ((Streamlitaap.recentS (Streamlitaap.sortByTs df)).map
                  Streamlitaap.SRow.aqi) * (1 / 5)) d)
    ∧ (Streamlitaap.forecast_simple stdFn uA uT df days today).length = days := by
  constructor
  · unfold Streamlitaap.predicted_aqi Streamlitaap.base_aqi Streamlitaap.aqi_std
    rw [if_neg hmiss, if_neg hmiss]
  · simp [Streamlitaap.forecast_simple]

/-- C7 witness: hist100 contains no day-of-week 5, and the day-5 prediction
from a Monday falls back to the recent-window statistics. -/
theorem claim_C7_witness :
    Streamlitaap.predicted_aqi zeroStd zeroUnif
        (Streamlitaap.sortByTs hist100) 0 5
      = Streamlitaap.recent_aqi (Streamlitaap.sortByTs hist100)
        + Streamlitaap.aqi_trend (Streamlitaap.sortByTs hist100) * 5 * (3 / 10)
        + zeroUnif (-(zeroStd ((Streamlitaap.recentS
              (Streamlitaap.sortByTs hist100)).map Streamlitaap.SRow.aqi) * (1 / 5)))
            (zeroStd ((Streamlitaap.recentS
              (Streamlitaap.sortByTs hist100)).map Streamlitaap.SRow.aqi) * (1 / 5)) 5
      ∧ (Streamlitaap.forecast_simple zeroStd zeroUnif zeroUnif
          hist100 3 0).length = 3 :=
  claim_C7 hist100 0 5 3 zeroStd zeroUnif zeroUnif (by decide)

theorem length_filterMap_pair (g : (ℕ × Option ℚ) → ℚ) :
    ∀ data : List (ℕ × Option ℚ),
      (data.filterMap (fun p => p.2.map (fun v => (g p, v)))).length
        = (data.filterMap Prod.snd).length := by
  intro data
  induction data with
  | nil => rfl
  | cons p rest ih => cases h : p.2 <;> simp [List.filterMap_cons, h, ih]

theorem minFst_eq_headFst {data : List (ℕ × Option ℚ)}
    (hs : List.Chain' (fun a b => a.1 ≤ b.1) data) :
    Webapp.minFst data = Webapp.headFst data := by
  cases data with
  | nil => rfl
  | cons p rest =>
    unfold Webapp.minFst Webapp.headFst
    simp only [List.map_cons]
    refine foldl_min_of_le _ _ (fun x hx => ?_)
    obtain ⟨q, hq, rfl⟩ := List.mem_map.mp hx
    have hpw : List.Pairwise (fun a b : ℕ × Option ℚ => a.1 ≤ b.1) (p :: rest) :=
      List.chain'_iff_pairwise.mp hs
    exact (List.pairwise_cons.mp hpw).1 q hq

/-- C4: for every trend window (a list of timestamp/value pairs, missing
values modelled as none) that is sorted by timestamp, the linear trend
estimator calc_trend returns slope exactly 0 when fewer than 2 valid samples
remain after masking, and otherwise returns the closed-form
ordinary-least-squares slope of the value against elapsed hours since the
window's first timestamp, i.e. the covariance/variance ratio over the
non-missing samples. -/
theorem claim_C4 (data : List (ℕ × Option ℚ))
    (hs : List.Chain' (fun a b => a.1 ≤ b.1) data) :
    ((data.filterMap Prod.snd).length < 2 → Webapp.calc_trend data = 0)
    ∧ (2 ≤ (data.filterMap Prod.snd).length →
        Webapp.calc_trend data = Webapp.olsSlopeSpec data) := by
  have hlen := length_filterMap_pair
    (fun p => ((p.1 - Webapp.minFst data : ℕ) : ℚ)) data
  constructor
  · intro h2
    simp only [Webapp.calc_trend]
    rw [if_pos (by rw [hlen]; exact h2)]
  · intro h2
    simp only [Webapp.calc_trend, Webapp.olsSlopeSpec,
      minFst_eq_headFst hs]
    rw [if_neg (by rw [length_filterMap_pair]; omega)]

/-- C4 witness: on the concrete sorted window dataC4 (two valid samples and
one missing one) calc_trend returns the ordinary-least-squares slope. -/
theorem claim_C4_witness :
    Webapp.calc_trend dataC4 = Webapp.olsSlopeSpec dataC4 :=
  (claim_C4 dataC4 (by norm_num [dataC4, List.chain'_cons,
    List.chain'_singleton])).2 (by decide)

/-- C9 counterexample: two rows sharing timestamp 5 both survive the load
step, so the table handed to the forecaster is not deduplicated and its
timestamps are not strictly increasing, refuting the deduplication half of
the claim. -/
theorem claim_C9_counterexample :
    ¬ ((LoadStep.load_data ["ts"]
        [((some 5 : Option ℕ), (1 : ℚ)), (some 5, 2)]).2.map Prod.fst).Nodup := by
  decide

/-- C9 as amended: the load step trims whitespace from the column names,
keeps exactly the rows whose timestamp parses (as a permutation of the parsed
rows, so unparseable rows are discarded and nothing else is lost or
duplicated), and returns them sorted ascending by timestamp — non-strictly:
duplicate timestamps are retained, not deduplicated. -/
theorem claim_C9_amended {α : Type} (cols : List String)
    (rows : List (Option ℕ × α)) :
    ((LoadStep.load_data cols rows).1 = cols.map (fun s => s.trim))
    ∧ (((LoadStep.load_data cols rows).2.map Prod.fst).Chain' (· ≤ ·))
    ∧ ((LoadStep.load_data cols rows).2.Perm
        (rows.filterMap (fun p => p.1.map (fun t => (t, p.2))))) := by
  refine ⟨rfl, ?_, List.perm_insertionSort _ _⟩
  have hs : List.Pairwise (fun a b : ℕ × α => a.1 ≤ b.1)
      (LoadStep.load_data cols rows).2 :=
    List.sorted_insertionSort _ _
  exact (hs.map Prod.fst (fun a b h => h)).chain'

theorem foldl_guardStep_none (mk : ℕ → α) (failAt : ℕ → Bool) :
    ∀ ds : List ℕ, ds.foldl (guardStep mk failAt) none = none := by
  intro ds
  induction ds with
  | nil => rfl
  | cons d ds ih => simpa [guardStep] using ih

theorem guardedFold_ok (mk : ℕ → α) (failAt : ℕ → Bool) :
    ∀ (ds : List ℕ) (init : List α), (∀ d ∈ ds, failAt d = false) →
      guardedFold mk failAt ds init = some (init ++ ds.map mk) := by
  intro ds
  induction ds with
  | nil => intro init _; simp [guardedFold]
  | cons d ds ih =>
    intro init h
    have hd : failAt d = false := h d (List.mem_cons_self d ds)
    have := ih (init ++ [mk d]) (fun y hy => h y (List.mem_cons_of_mem d hy))
    simpa [guardedFold, guardStep, hd, List.foldl_cons] using this

theorem guardedFold_fail (mk : ℕ → α) (failAt : ℕ → Bool) :
    ∀ (ds : List ℕ) (init : List α) (d : ℕ), d ∈ ds → failAt d = true →
      guardedFold mk failAt ds init = none := by
  intro ds
  induction ds with
  | nil => intro init d hd; exact absurd hd (List.not_mem_nil d)
  | cons a ds ih =>
    intro init d hd hf
    rcases List.mem_cons.mp hd with rfl | hd'
    · simp [guardedFold, guardStep, hf, foldl_guardStep_none]
    · cases hfa : failAt a
      · simpa [guardedFold, guardStep, hfa, List.foldl_cons]
          using ih (init ++ [mk a]) d hd' hf
      · simp [guardedFold, guardStep, hfa, foldl_guardStep_none]

/-- C6: with the top-level try/except modelled explicitly (failPre an
exception in the precomputation, failAt d an exception while building day d's
record), both forecasters either return the complete forecast or the absent
sentinel none, never a partially filled sequence; when no exception occurs
the result is exactly the pure forecast, and when any exception occurs the
result is none. -/
theorem claim_C6 (stdFn : List ℚ → ℚ) (uA uT : ℚ → ℚ → ℕ → ℚ)
    (df : List Streamlitaap.SRow) (days today : ℕ) (failPre : Bool)
    (failAt : ℕ → Bool) (gauss : ℚ → ℕ → ℕ → ℚ) (dfw : List Webapp.WRow) :
    (Streamlitaap.forecast_simple_run stdFn uA uT df days today failPre failAt
        = none
      ∨ Streamlitaap.forecast_simple_run stdFn uA uT df days today failPre failAt
        = some (Streamlitaap.forecast_simple stdFn uA uT df days today))
    ∧ (failPre = false → (∀ d ∈ List.range' 1 days, failAt d = false) →
        Streamlitaap.forecast_simple_run stdFn uA uT df days today failPre failAt
          = some (Streamlitaap.forecast_simple stdFn uA uT df days today))
    ∧ ((failPre = true ∨ ∃ d ∈ List.range' 1 days, failAt d = true) →
        Streamlitaap.forecast_simple_run stdFn uA uT df days today failPre failAt
          = none)
    ∧ (Webapp.forecast_weather_run gauss dfw days today failPre failAt = none
      ∨ Webapp.forecast_weather_run gauss dfw days today failPre failAt
        = some (Webapp.forecast_weather gauss dfw days today))
    ∧ (failPre = false → (∀ d ∈ List.range' 1 days, failAt d = false) →
        Webapp.forecast_weather_run gauss dfw days today failPre failAt
          = some (Webapp.forecast_weather gauss dfw days today))
    ∧ ((failPre = true ∨ ∃ d ∈ List.range' 1 days, failAt d = true) →
        Webapp.forecast_weather_run gauss dfw days today failPre failAt
          = none) := by
  have hok : (∀ d ∈ List.range' 1 days, failAt d = false) → failPre = false →
      Streamlitaap.forecast_simple_run stdFn uA uT df days today failPre failAt
        = some (Streamlitaap.forecast_simple stdFn uA uT df days today) := by
    intro hall hp
    simp [Streamlitaap.forecast_simple_run, hp,
      guardedFold_ok _ failAt _ [] hall, Streamlitaap.forecast_simple]
  have hokw : (∀ d ∈ List.range' 1 days, failAt d = false) → failPre = false →
      Webapp.forecast_weather_run gauss dfw days today failPre failAt
        = some (Webapp.forecast_weather gauss dfw days today) := by
    intro hall hp
    simp [Webapp.forecast_weather_run, hp,
      guardedFold_ok _ failAt _ [] hall, Webapp.forecast_weather]
  have hfail : (failPre = true ∨ ∃ d ∈ List.range' 1 days, failAt d = true) →
      Streamlitaap.forecast_simple_run stdFn uA uT df days today failPre failAt
        = none := by
    rintro (hp | ⟨d, hd, hf⟩)
    · simp [Streamlitaap.forecast_simple_run, hp]
    · cases hp : failPre
      · simp [Streamlitaap.forecast_simple_run, hp,
          guardedFold_fail _ failAt _ [] d hd hf]
      · simp [Streamlitaap.forecast_simple_run, hp]
  have hfailw : (failPre = true ∨ ∃ d ∈ List.range' 1 days, failAt d = true) →
      Webapp.forecast_weather_run gauss dfw days today failPre failAt
        = none := by
    rintro (hp | ⟨d, hd, hf⟩)
    · simp [Webapp.forecast_weather_run, hp]
    · cases hp : failPre
      · simp [Webapp.forecast_weather_run, hp,
          guardedFold_fail _ failAt _ [] d hd hf]
      · simp [Webapp.forecast_weather_run, hp]
  refine ⟨?_, fun hp hall => hok hall hp, hfail, ?_,
    fun hp hall => hokw hall hp, hfailw⟩
  · by_cases hp : failPre = true
    · exact Or.inl (hfail (Or.inl hp))
    · replace hp := Bool.not_eq_true failPre |>.mp hp
      by_cases hall : ∀ d ∈ List.range' 1 days, failAt d = false
      · exact Or.inr (hok hall hp)
      · refine Or.inl (hfail (Or.inr ?_))
        simp only [not_forall] at hall
        obtain ⟨d, hd, hne⟩ := hall
        cases hb : failAt d
        · exact absurd hb hne
        · exact ⟨d, hd, hb⟩
  · by_cases hp : failPre = true
    · exact Or.inl (hfailw (Or.inl hp))
    · replace hp := Bool.not_eq_true failPre |>.mp hp
      by_cases hall : ∀ d ∈ List.range' 1 days, failAt d = false
      · exact Or.inr (hokw hall hp)
      · refine Or.inl (hfailw (Or.inr ?_))
        simp only [not_forall] at hall
        obtain ⟨d, hd, hne⟩ := hall
        cases hb : failAt d
        · exact absurd hb hne
        · exact ⟨d, hd, hb⟩

/-- C6 witness: an exception on day 2 of a 3-day horizon makes both runs
return the absent sentinel, with no partial 1-record result. -/
theorem claim_C6_witness :
    Streamlitaap.forecast_simple_run zeroStd zeroUnif zeroUnif hist100 3 0
        false (fun d => decide (d = 2)) = none
    ∧ Webapp.forecast_weather_run zeroGauss dfC8 3 0
        false (fun d => decide (d = 2)) = none :=
  ⟨(claim_C6 zeroStd zeroUnif zeroUnif hist100 3 0 false
      (fun d => decide (d = 2)) zeroGauss dfC8).2.2.1
    (Or.inr ⟨2, by decide, by decide⟩),
   (claim_C6 zeroStd zeroUnif zeroUnif hist100 3 0 false
      (fun d => decide (d = 2)) zeroGauss dfC8).2.2.2.2.2
    (Or.inr ⟨2, by decide, by decide⟩)⟩

/-- C2 counterexample: on the concrete history dfW2 with noise stubbed to 0,
the wind prediction the code computes for day 1 hour 0 (namely 4) differs
from the formula the claim asserts for wind, which would add the day-of-week
seasonal deviation (giving 3): the wind prediction carries no day-of-week
term. -/
theorem claim_C2_counterexample :
    Webapp.pred_w zeroGauss (Webapp.sortByTs dfW2) 6 1 0
      ≠ Webapp.pred_w_claim zeroGauss (Webapp.sortByTs dfW2) 6 1 0 := by
  decide

/-- C2 as amended: hour_offset equals the elapsed hours of the trailing
7-day window plus (d - 1) * 24 + h; the pre-clip temperature and humidity
predictions equal baseline level + hour-of-day seasonal deviation from its
own mean + day-of-week seasonal deviation from its own mean + trend slope *
hour_offset + Gaussian noise drawn with sigma 0.3 (temperature) and 1.5
(humidity); the wind prediction omits the day-of-week deviation term: it is
baseline + hour-of-day deviation + trend slope * hour_offset + Gaussian noise
with sigma 0.2; the forecast records hold exactly the 24 clipped values of
these predictions. -/
theorem claim_C2_amended (gauss : ℚ → ℕ → ℕ → ℚ) (df : List Webapp.WRow)
    (today d h : ℕ) :
    (Webapp.hr_off (Webapp.sortByTs df) d h
      = Webapp.last_hrs (Webapp.sortByTs df) + (((d - 1) * 24 + h : ℕ) : ℚ))
    ∧ (Webapp.pred_t gauss (Webapp.sortByTs df) today d h
      = Webapp.base_temp (Webapp.sortByTs df)
        + (groupGet Webapp.hourOf Webapp.WRow.temp_C (Webapp.sortByTs df) h
            (Webapp.base_temp (Webapp.sortByTs df))
          - meanOfGroupMeans Webapp.hourOf Webapp.WRow.temp_C (Webapp.sortByTs df))
        + (groupGet Webapp.dowOf Webapp.WRow.temp_C (Webapp.sortByTs df)
            (Webapp.targetDow today d) (Webapp.base_temp (Webapp.sortByTs df))
          - meanOfGroupMeans Webapp.dowOf Webapp.WRow.temp_C (Webapp.sortByTs df))
        + Webapp.temp_slope (Webapp.sortByTs df) * Webapp.hr_off (Webapp.sortByTs df) d h
        + gauss (3 / 10) d h)
    ∧ (Webapp.pred_h gauss (Webapp.sortByTs df) today d h
      = Webapp.base_hum (Webapp.sortByTs df)
        + (groupGet Webapp.hourOf Webapp.WRow.humidity_percent (Webapp.sortByTs df) h
            (Webapp.base_hum (Webapp.sortByTs df))
          - meanOfGroupMeans Webapp.hourOf Webapp.WRow.humidity_percent
              (Webapp.sortByTs df))
        + (groupGet Webapp.dowOf Webapp.WRow.humidity_percent (Webapp.sortByTs df)
            (Webapp.targetDow today d) (Webapp.base_hum (Webapp.sortByTs df))
          - meanOfGroupMeans Webapp.dowOf Webapp.WRow.humidity_percent
              (Webapp.sortByTs df))
        + Webapp.hum_slope (Webapp.sortByTs df) * Webapp.hr_off (Webapp.sortByTs df) d h
        + gauss (15 / 10) d h)
    ∧ (Webapp.pred_w gauss (Webapp.sortByTs df) today d h
      = Webapp.base_wind (Webapp.sortByTs df)
        + (groupGet Webapp.hourOf Webapp.WRow.wind_speed_mps (Webapp.sortByTs df) h
            (Webapp.base_wind (Webapp.sortByTs df))
          - meanOfGroupMeans Webapp.hourOf Webapp.WRow.wind_speed_mps
              (Webapp.sortByTs df))
        + Webapp.wind_slope (Webapp.sortByTs df) * Webapp.hr_off (Webapp.sortByTs df) d h
        + gauss (2 / 10) d h)
    ∧ ((Webapp.wrecOf gauss (Webapp.sortByTs df) today d).temps
      = (List.range 24).map
          (fun h => clip (Webapp.pred_t gauss (Webapp.sortByTs df) today d h) 15 45))
    ∧ ((Webapp.wrecOf gauss (Webapp.sortByTs df) today d).humidity
      = (List.range 24).map
          (fun h => clip (Webapp.pred_h gauss (Webapp.sortByTs df) today d h) 20 100))
    ∧ ((Webapp.wrecOf gauss (Webapp.sortByTs df) today d).wind
      = (List.range 24).map
          (fun h => clip (Webapp.pred_w gauss (Webapp.sortByTs df) today d h) 0 25)) :=
  ⟨rfl, rfl, rfl, rfl, rfl, rfl, rfl⟩

theorem slope_num_zero {pts : List (ℚ × ℚ)} {c : ℚ} (xbar : ℚ)
    (h : ∀ q ∈ pts, q.2 = c) (hne : pts ≠ []) :
    (pts.map (fun p => (p.1 - xbar) * (p.2 - qmean (pts.map Prod.snd)))).sum
      = 0 := by
  have hybar : qmean (pts.map Prod.snd) = c := by
    refine qmean_const (fun x hx => ?_) (by simpa [List.map_eq_nil_iff] using hne)
    obtain ⟨q, hq, rfl⟩ := List.mem_map.mp hx
    exact h q hq
  refine List.sum_eq_zero (fun x hx => ?_)
  obtain ⟨q, hq, rfl⟩ := List.mem_map.mp hx
  rw [h q hq, hybar, sub_self, mul_zero]

theorem calc_trend_const {data : List (ℕ × Option ℚ)} {c : ℚ}
    (hc : ∀ p ∈ data, p.2 = some c) : Webapp.calc_trend data = 0 := by
  simp only [Webapp.calc_trend]
  split
  · rfl
  · rename_i hlen
    set pts := data.filterMap
      (fun p => p.2.map (fun v => (((p.1 - Webapp.minFst data : ℕ) : ℚ), v)))
      with hdef
    have hmem : ∀ q ∈ pts, q.2 = c := by
      intro q hq
      rw [hdef] at hq
      obtain ⟨p, hp, hg⟩ := List.mem_filterMap.mp hq
      rw [hc p hp, Option.map_some'] at hg
      rw [← Option.some.inj hg]
    have hne : pts ≠ [] := by
      intro h0
      rw [h0] at hlen
      simp at hlen
    rw [slope_num_zero (qmean (pts.map Prod.fst)) hmem hne, zero_div]

theorem sortW_mem {df : List Webapp.WRow} {r : Webapp.WRow} :
    r ∈ Webapp.sortByTs df ↔ r ∈ df :=
  (List.perm_insertionSort _ df).mem_iff

theorem sortW_ne_nil {df : List Webapp.WRow} (h : df ≠ []) :
    Webapp.sortByTs df ≠ [] := by
  intro h0
  have hp : df.Perm (Webapp.sortByTs df) :=
    (List.perm_insertionSort (fun a b : Webapp.WRow => a.ts ≤ b.ts) df).symm
  rw [h0] at hp
  exact h hp.eq_nil

theorem recentW_subset {dfs : List Webapp.WRow} :
    ∀ r ∈ Webapp.recentW dfs, r ∈ dfs :=
  fun _ hr => List.mem_of_mem_filter hr

theorem recentW_ne_nil {dfs : List Webapp.WRow} (h : dfs ≠ []) :
    Webapp.recentW dfs ≠ [] := by
  cases dfs with
  | nil => exact absurd rfl h
  | cons r0 rest =>
    rcases foldl_max_or ((r0 :: rest).map Webapp.WRow.ts) 0 with h0 | hmem
    · have hr0 : r0 ∈ Webapp.recentW (r0 :: rest) := by
        refine List.mem_filter.mpr ⟨List.mem_cons_self r0 rest, ?_⟩
        have hm : Webapp.maxTs (r0 :: rest) = 0 := h0
        simp [hm]
      exact List.ne_nil_of_mem hr0
    · obtain ⟨r, hr, heq⟩ := List.mem_map.mp hmem
      have hm : Webapp.maxTs (r0 :: rest) = r.ts := heq.symm
      have hle : Webapp.maxTs (r0 :: rest) - 168 ≤ r.ts := by
        rw [hm]
        exact Nat.sub_le _ _
      exact List.ne_nil_of_mem (List.mem_filter.mpr ⟨hr, by simp [hle]⟩)

theorem baseW_const {dfs : List Webapp.WRow} {f : Webapp.WRow → ℚ} {c : ℚ}
    (hne : dfs ≠ []) (h : ∀ r ∈ dfs, f r = c) :
    qmean ((tailN 24 (Webapp.recentW dfs)).map f) = c := by
  refine qmean_const (fun x hx => ?_) ?_
  · obtain ⟨r, hr, rfl⟩ := List.mem_map.mp hx
    exact h r (recentW_subset r (tailN_subset _ _ r hr))
  · simpa [List.map_eq_nil_iff] using
      tailN_ne_nil (recentW_ne_nil hne) (by norm_num)

theorem slopeW_const {dfs : List Webapp.WRow} {f : Webapp.WRow → ℚ} {c : ℚ}
    (h : ∀ r ∈ dfs, f r = c) :
    Webapp.calc_trend ((Webapp.recentW dfs).map (fun r => (r.ts, some (f r)))) = 0 := by
  refine @calc_trend_const _ c (fun p hp => ?_)
  obtain ⟨r, hr, rfl⟩ := List.mem_map.mp hp
  simp [h r (recentW_subset r hr)]

theorem pred_t_const {dfs : List Webapp.WRow} {today d h : ℕ} {c : ℚ}
    (hne : dfs ≠ []) (hc : ∀ r ∈ dfs, r.temp_C = c) :
    Webapp.pred_t zeroGauss dfs today d h = c := by
  have hb : Webapp.base_temp dfs = c := baseW_const hne hc
  unfold Webapp.pred_t Webapp.t_seas Webapp.weekly_t
  rw [hb, groupGet_const hc rfl, groupGet_const hc rfl,
    meanOfGroupMeans_const hc hne, meanOfGroupMeans_const hc hne]
  have hs : Webapp.temp_slope dfs = 0 := slopeW_const hc
  rw [hs]
  show c + (c - c) + (c - c) + 0 * Webapp.hr_off dfs d h + 0 = c
  ring

theorem pred_h_const {dfs : List Webapp.WRow} {today d h : ℕ} {c : ℚ}
    (hne : dfs ≠ []) (hc : ∀ r ∈ dfs, r.humidity_percent = c) :
    Webapp.pred_h zeroGauss dfs today d h = c := by
  have hb : Webapp.base_hum dfs = c := baseW_const hne hc
  unfold Webapp.pred_h Webapp.h_seas Webapp.weekly_h
  rw [hb, groupGet_const hc rfl, groupGet_const hc rfl,
    meanOfGroupMeans_const hc hne, meanOfGroupMeans_const hc hne]
  have hs : Webapp.hum_slope dfs = 0 := slopeW_const hc
  rw [hs]
  show c + (c - c) + (c - c) + 0 * Webapp.hr_off dfs d h + 0 = c
  ring

theorem pred_w_const {dfs : List Webapp.WRow} {today d h : ℕ} {c : ℚ}
    (hne : dfs ≠ []) (hc : ∀ r ∈ dfs, r.wind_speed_mps = c) :
    Webapp.pred_w zeroGauss dfs today d h = c := by
  have hb : Webapp.base_wind dfs = c := baseW_const hne hc
  unfold Webapp.pred_w Webapp.w_seas
  rw [hb, groupGet_const hc rfl, meanOfGroupMeans_const hc hne]
  have hs : Webapp.wind_slope dfs = 0 := slopeW_const hc
  rw [hs]
  show c + (c - c) + 0 * Webapp.hr_off dfs d h + 0 = c
  ring

/-- C8 counterexample: dfC8bad is a constant-valued history whose temperature
is 50 at every timestamp, yet the hourly forecaster with noise stubbed to 0
returns 45 (the upper clip bound) for day 1 hour 0, not the constant 50: the
claim fails for constants outside the clip interval. -/
theorem claim_C8_counterexample :
    (dfC8bad.all (fun r => r.temp_C == 50)) = true
    ∧ ((Webapp.forecast_weather zeroGauss dfC8bad 1 0).1.getD 0
        wdefault).temps.getD 0 0 = 45
    ∧ (45 : ℚ) ≠ 50 :=
  ⟨by decide, by decide, by decide⟩

/-- C8 as amended: for every nonempty history in which each measured quantity
is one constant value at all timestamps, with the constants lying inside
their clip intervals (temperature in [15, 45], humidity in [20, 100], wind in
[0, 25]), the hourly forecaster with Gaussian noise stubbed to 0 predicts
exactly the constant for every hour of every day of the horizon; outside the
clip interval the pre-clip prediction still equals the constant but the
returned value is clipped. -/
theorem claim_C8_amended (df : List Webapp.WRow) (days today : ℕ)
    (ct ch cw : ℚ) (hne : df ≠ [])
    (ht : ∀ r ∈ df, r.temp_C = ct)
    (hh : ∀ r ∈ df, r.humidity_percent = ch)
    (hw : ∀ r ∈ df, r.wind_speed_mps = cw)
    (hbt1 : 15 ≤ ct) (hbt2 : ct ≤ 45)
    (hbh1 : 20 ≤ ch) (hbh2 : ch ≤ 100)
    (hbw1 : 0 ≤ cw) (hbw2 : cw ≤ 25) :
    (((Webapp.forecast_weather zeroGauss df days today).1).map Webapp.WRec.temps
      = List.replicate days (List.replicate 24 ct))
    ∧ (((Webapp.forecast_weather zeroGauss df days today).1).map
        Webapp.WRec.humidity = List.replicate days (List.replicate 24 ch))
    ∧ (((Webapp.forecast_weather zeroGauss df days today).1).map Webapp.WRec.wind
      = List.replicate days (List.replicate 24 cw)) := by
  have hnes : Webapp.sortByTs df ≠ [] := sortW_ne_nil hne
  have hts : ∀ r ∈ Webapp.sortByTs df, r.temp_C = ct :=
    fun r hr => ht r (sortW_mem.mp hr)
  have hhs : ∀ r ∈ Webapp.sortByTs df, r.humidity_percent = ch :=
    fun r hr => hh r (sortW_mem.mp hr)
  have hws : ∀ r ∈ Webapp.sortByTs df, r.wind_speed_mps = cw :=
    fun r hr => hw r (sortW_mem.mp hr)
  refine ⟨?_, ?_, ?_⟩
  · simp only [Webapp.forecast_weather, List.map_map]
    have hcong : List.map
          (Webapp.WRec.temps ∘ Webapp.wrecOf zeroGauss (Webapp.sortByTs df) today)
          (List.range' 1 days)
        = List.map (fun _ => List.replicate 24 ct) (List.range' 1 days) := by
      refine List.map_congr_left (fun d _ => ?_)
      simp only [Function.comp_apply, Webapp.wrecOf]
      refine List.eq_replicate_iff.mpr ⟨by simp, fun b hb => ?_⟩
      obtain ⟨h, _, rfl⟩ := List.mem_map.mp hb
      rw [pred_t_const hnes hts]
      exact clip_eq_self hbt1 hbt2
    rw [hcong, List.map_const', List.length_range']
  · simp only [Webapp.forecast_weather, List.map_map]
    have hcong : List.map
          (Webapp.WRec.humidity ∘ Webapp.wrecOf zeroGauss (Webapp.sortByTs df) today)
          (List.range' 1 days)
        = List.map (fun _ => List.replicate 24 ch) (List.range' 1 days) := by
      refine List.map_congr_left (fun d _ => ?_)
      simp only [Function.comp_apply, Webapp.wrecOf]
      refine List.eq_replicate_iff.mpr ⟨by simp, fun b hb => ?_⟩
      obtain ⟨h, _, rfl⟩ := List.mem_map.mp hb
      rw [pred_h_const hnes hhs]
      exact clip_eq_self hbh1 hbh2
    rw [hcong, List.map_const', List.length_range']
  · simp only [Webapp.forecast_weather, List.map_map]
    have hcong : List.map
          (Webapp.WRec.wind ∘ Webapp.wrecOf zeroGauss (Webapp.sortByTs df) today)
          (List.range' 1 days)
        = List.map (fun _ => List.replicate 24 cw) (List.range' 1 days) := by
      refine List.map_congr_left (fun d _ => ?_)
      simp only [Function.comp_apply, Webapp.wrecOf]
      refine List.eq_replicate_iff.mpr ⟨by simp, fun b hb => ?_⟩
      obtain ⟨h, _, rfl⟩ := List.mem_map.mp hb
      rw [pred_w_const hnes hws]
      exact clip_eq_self hbw1 hbw2
    rw [hcong, List.map_const', List.length_range']

/-- C8 witness: on the concrete constant history dfC8 (temperature 20,
humidity 50, wind 5, all inside the clip bounds) every predicted value of the
1-day horizon equals the constant. -/
theorem claim_C8_amended_witness :
    (((Webapp.forecast_weather zeroGauss dfC8 1 0).1).map Webapp.WRec.temps
      = List.replicate 1 (List.replicate 24 (20 : ℚ)))
    ∧ (((Webapp.forecast_weather zeroGauss dfC8 1 0).1).map
        Webapp.WRec.humidity = List.replicate 1 (List.replicate 24 (50 : ℚ)))
    ∧ (((Webapp.forecast_weather zeroGauss dfC8 1 0).1).map Webapp.WRec.wind
      = List.replicate 1 (List.replicate 24 (5 : ℚ))) :=
  claim_C8_amended dfC8 1 0 20 50 5 (by decide) (by decide) (by decide)
    (by decide) (by norm_num) (by norm_num) (by norm_num) (by norm_num)
    (by norm_num) (by norm_num)

